import Mathlib

/-!
Shallow embedding of the `catpea/unbrick` ASUS AURA recovery layer.

The protocol codec (`src/protocol.js`, here `AuraProtocol`) builds fixed
65-byte command packets; packets are modelled as `List Nat` where each
stored byte is reduced modulo 256 on write, matching Node `Buffer`
assignment semantics (out-of-range writes are silent no-ops, reads of
missing indices yield the default 0, undefined never compares equal to a
nonzero byte constant).

The session controller (`src/aura-safe.js`, here `SafeAuraController`)
is stateful JS; it is embedded by explicit state passing: every operation
takes a `Controller` and returns `Except String (Controller × List Packet)`
where the list records the packets handed to the transport, in order.
The transport itself (HID open/write/read) is external; a device response
is passed in as an `Option Packet` parameter where an operation reads one.
-/

set_option maxHeartbeats 1000000

namespace Unbrick

/-- PACKET_SIZE from protocol.js. -/
def PACKET_SIZE : Nat := 65

/-- An RGB color object `{ r, g, b }`. -/
structure Color where
  r : Nat
  g : Nat
  b : Nat
deriving DecidableEq

/-- A wire packet: a byte buffer, one `Nat` per byte. -/
abbrev Packet := List Nat

/-- Read byte `i` of a buffer; a missing index reads as 0. -/
def byteAt : Packet → Nat → Nat
  | [], _ => 0
  | b :: _, 0 => b
  | _ :: p, i + 1 => byteAt p i

/-- `Buffer.alloc(PACKET_SIZE)`: a zero-filled 65-byte packet. -/
def createPacket : Packet := List.replicate PACKET_SIZE 0

/-- `packet[i] = v` on a Node Buffer: stores `v mod 256`; writing past the
end is a silent no-op. -/
def setByte : Packet → Nat → Nat → Packet
  | [], _, _ => []
  | _ :: p, 0, v => (v % 256) :: p
  | b :: p, i + 1, v => b :: setByte p i v

theorem length_setByte (p : Packet) (i v : Nat) : (setByte p i v).length = p.length := by
  induction p generalizing i with
  | nil => rfl
  | cons b t ih =>
    cases i with
    | zero => rfl
    | succ j => simpa [setByte] using ih j

theorem byteAt_setByte_self (p : Packet) (i v : Nat) (h : i < p.length) :
    byteAt (setByte p i v) i = v % 256 := by
  induction p generalizing i with
  | nil => simp at h
  | cons b t ih =>
    cases i with
    | zero => rfl
    | succ j =>
      simp only [List.length_cons, Nat.succ_lt_succ_iff] at h
      simpa [setByte, byteAt] using ih j h

theorem byteAt_setByte_ne (p : Packet) (i j v : Nat) (h : i ≠ j) :
    byteAt (setByte p i v) j = byteAt p j := by
  induction p generalizing i j with
  | nil => rfl
  | cons b t ih =>
    cases i with
    | zero =>
      cases j with
      | zero => exact absurd rfl h
      | succ k => rfl
    | succ i2 =>
      cases j with
      | zero => rfl
      | succ k =>
        simpa [setByte, byteAt] using ih i2 k (by omega)

theorem byteAt_replicate_zero (n i : Nat) : byteAt (List.replicate n 0) i = 0 := by
  induction n generalizing i with
  | zero => rfl
  | succ m ih =>
    cases i with
    | zero => rfl
    | succ j => simpa [List.replicate, byteAt] using ih j

theorem byteAt_createPacket (i : Nat) : byteAt createPacket i = 0 :=
  byteAt_replicate_zero PACKET_SIZE i

theorem length_createPacket : createPacket.length = 65 := by
  simp [createPacket, PACKET_SIZE]

namespace AuraProtocol

/-- The request packet built by `getConfig()`: `EC B0`. -/
def readConfigPacket : Packet :=
  setByte (setByte createPacket 0 0xEC) 1 0xB0

/-- The decoded configuration object returned by `getConfig()`. -/
structure Config where
  raw : Packet
  channel0_leds : Nat
  channel1_leds : Nat
  channel2_leds : Nat
deriving DecidableEq

/-- Decoding half of `getConfig()` (protocol.js lines 103-115): reject an
absent response or one whose first two bytes are not `EC 30`; otherwise
read the channel LED counts at offsets 0x0A, 0x10, 0x16. -/
def getConfig (response : Option Packet) : Except String Config :=
  match response with
  | none => Except.error "Invalid config response"
  | some r =>
    if byteAt r 0 = 0xEC ∧ byteAt r 1 = 0x30 then
      Except.ok
        { raw := r
          channel0_leds := byteAt r 0x0A
          channel1_leds := byteAt r 0x10
          channel2_leds := byteAt r 0x16 }
    else Except.error "Invalid config response"

/-- `setLEDCount(channel, count)`: `EC 52 53 [channel] [count]`. -/
def setLEDCount (channel count : Nat) : Packet :=
  setByte (setByte (setByte (setByte (setByte createPacket 0 0xEC) 1 0x52) 2 0x53) 3 channel) 4 count

/-- `commit()`: `EC 3F 55`. -/
def commit : Packet :=
  setByte (setByte (setByte createPacket 0 0xEC) 1 0x3F) 2 0x55

/-- `setEffect(channel, mode, r, g, b, brightness)`:
`EC 35 [channel] [mode] [r] [g] [b] [brightness]`. -/
def setEffect (channel mode r g b brightness : Nat) : Packet :=
  setByte (setByte (setByte (setByte (setByte (setByte (setByte (setByte createPacket
    0 0xEC) 1 0x35) 2 channel) 3 mode) 4 r) 5 g) 6 b) 7 brightness

/-- One iteration of the `setDirectLED` loop body: write the triplet of
color number `i` at `idx = 0x05 + i*3`. -/
def writeColor (p : Packet) (i : Nat) (c : Color) : Packet :=
  setByte (setByte (setByte p (5 + 3 * i) c.r) (5 + 3 * i + 1) c.g) (5 + 3 * i + 2) c.b

/-- The `setDirectLED` loop: write the triplets of `cs`, the first at
color index `i`.  The source loop runs `i` from 0 while `i < colors.length
&& i < 20`, which is iteration over `colors.take 20` starting at index 0. -/
def writeColors : List Color → Nat → Packet → Packet
  | [], _, p => p
  | c :: cs, i, p => writeColors cs (i + 1) (writeColor p i c)

/-- `setDirectLED(channel, offset, colors)`: header
`EC 40 [0x80|channel] [offset] [colors.length]`, then the triplets of the
first 20 colors from byte 5 on. -/
def setDirectLED (channel offset : Nat) (colors : List Color) : Packet :=
  writeColors (colors.take 20) 0
    (setByte (setByte (setByte (setByte (setByte createPacket
      0 0xEC) 1 0x40) 2 (0x80 ||| channel)) 3 offset) 4 colors.length)

end AuraProtocol

/-- The BLACK STATE MACHINE states of aura-safe.js. -/
inductive BSMState
  | Disconnected
  | Locked
  | Runtime
  | Committed
deriving DecidableEq

/-- The mutable fields of a `SafeAuraController` instance that the
operations read or write: the tracked state and the configured topology.
The topology object's entries are modelled as an association list in the
order `Object.entries` yields them (ascending numeric key order for the
integer channel keys used here). -/
structure Controller where
  state : BSMState
  topology : List (Nat × Nat)
deriving DecidableEq

/-- The default topology from the constructor: `{0: 15, 1: 15, 2: 16}`. -/
def defaultTopology : List (Nat × Nat) := [(0, 15), (1, 15), (2, 16)]

namespace SafeAuraController

/-- The packets sent by the `Object.entries(topology)` loop of
`initTopology` / `unbrick`: one `setLEDCount` per entry, in entry order. -/
def topoPackets (t : List (Nat × Nat)) : List Packet :=
  t.map fun p => AuraProtocol.setLEDCount p.1 p.2

/-- `initTopology()` (aura-safe.js lines 76-99). -/
def initTopology (c : Controller) : Except String (Controller × List Packet) :=
  if c.state = BSMState.Disconnected then
    Except.error "[BSM] Cannot init topology while disconnected"
  else
    Except.ok ({ c with state := BSMState.Runtime }, topoPackets c.topology)

/-- `connect()` (aura-safe.js lines 47-58): the transport's device-open is
external, so its outcome is the parameter `deviceFound`; on success the
state becomes `LOCKED` and `initTopology()` runs unconditionally. -/
def connect (c : Controller) (deviceFound : Bool) : Except String (Controller × List Packet) :=
  if deviceFound then initTopology { c with state := BSMState.Locked }
  else Except.error "ASUS Aura controller not found (0b05:19af)"

/-- `disconnect()` (aura-safe.js lines 63-70). -/
def disconnect (c : Controller) : Controller :=
  { c with state := BSMState.Disconnected }

/-- The guard `_ensureRuntime()` (aura-safe.js lines 104-115). -/
def ensureRuntime (c : Controller) : Except String (Controller × List Packet) :=
  if c.state = BSMState.Disconnected then Except.error "[BSM] Not connected"
  else if c.state = BSMState.Locked then initTopology c
  else Except.ok (c, [])

/-- `setLED(channel, ledIndex, r, g, b)` (aura-safe.js lines 121-125). -/
def setLED (c : Controller) (channel ledIndex r g b : Nat) :
    Except String (Controller × List Packet) :=
  match ensureRuntime c with
  | Except.error e => Except.error e
  | Except.ok (c2, sent) =>
    Except.ok (c2, sent ++ [AuraProtocol.setDirectLED channel ledIndex [⟨r, g, b⟩]])

/-- The property lookup `this.topology[channel]`: the value at channel key
`channel`, if the object has such an entry. -/
def topoCount (t : List (Nat × Nat)) (channel : Nat) : Option Nat :=
  (t.find? fun p => p.1 == channel).map fun p => p.2

/-- `setAllLEDs(channel, r, g, b)` (aura-safe.js lines 130-137):
`this.topology[channel] || 16` falls back to 16 when the lookup is
`undefined` or `0` (both falsy). -/
def setAllLEDs (c : Controller) (channel r g b : Nat) :
    Except String (Controller × List Packet) :=
  match ensureRuntime c with
  | Except.error e => Except.error e
  | Except.ok (c2, sent) =>
    let count :=
      match topoCount c.topology channel with
      | some n => if n = 0 then 16 else n
      | none => 16
    Except.ok (c2, sent ++ [AuraProtocol.setDirectLED channel 0 (List.replicate count ⟨r, g, b⟩)])

/-- `setEffect(channel, mode, r, g, b, brightness)` (aura-safe.js lines 142-146). -/
def setEffect (c : Controller) (channel mode r g b brightness : Nat) :
    Except String (Controller × List Packet) :=
  match ensureRuntime c with
  | Except.error e => Except.error e
  | Except.ok (c2, sent) =>
    Except.ok (c2, sent ++ [AuraProtocol.setEffect channel mode r g b brightness])

/-- `commit()` (aura-safe.js lines 152-167). -/
def commit (c : Controller) : Except String (Controller × List Packet) :=
  if c.state ≠ BSMState.Runtime then
    Except.error "[BSM] Cannot commit in state"
  else
    Except.ok ({ c with state := BSMState.Committed }, [AuraProtocol.commit])

/-- `getConfig()` (aura-safe.js lines 172-178): state guard, then the
protocol read; the device's reply is the external `response`. -/
def getConfig (c : Controller) (response : Option Packet) : Except String AuraProtocol.Config :=
  if c.state = BSMState.Disconnected then Except.error "[BSM] Not connected"
  else AuraProtocol.getConfig response

/-- `isBricked()` (aura-safe.js lines 190-215). -/
def isBricked (c : Controller) (response : Option Packet) : Bool :=
  match getConfig c response with
  | Except.error _ => true
  | Except.ok config =>
    if config.channel0_leds = 0 ∨ config.channel1_leds = 0 ∨ config.channel2_leds = 0 then
      true
    else if config.channel0_leds = config.channel1_leds ∧
        config.channel1_leds = config.channel2_leds ∧ config.channel0_leds ≠ 15 then
      true
    else
      false

/-- `unbrick(targetTopology)` (aura-safe.js lines 221-254): set-topology
for every entry, commit, then `this.getConfig()` with the external
`response`; on a decoded snapshot, success is `channel2_leds >= 16` and
the state becomes `COMMITTED` either way.  A `getConfig` failure
propagates (the packets already written to the transport are then not
reported, matching the thrown exception). -/
def unbrick (c : Controller) (targetTopology : Option (List (Nat × Nat)))
    (response : Option Packet) : Except String (Controller × List Packet × Bool) :=
  let topology := targetTopology.getD c.topology
  match getConfig c response with
  | Except.error e => Except.error e
  | Except.ok config =>
    Except.ok ({ c with state := BSMState.Committed },
      topoPackets topology ++ [AuraProtocol.commit, AuraProtocol.readConfigPacket],
      decide (16 ≤ config.channel2_leds))

end SafeAuraController

/-- A synthetic, well-formed config response: `EC 30` header and the given
channel counts at the documented offsets 0x0A, 0x10, 0x16. -/
def mkResponse (c0 c1 c2 : Nat) : Packet :=
  setByte (setByte (setByte (setByte (setByte createPacket 0 0xEC) 1 0x30) 0x0A c0) 0x10 c1)
    0x16 c2

theorem length_writeColor (p : Packet) (i : Nat) (c : Color) :
    (AuraProtocol.writeColor p i c).length = p.length := by
  simp [AuraProtocol.writeColor, length_setByte]

theorem length_writeColors (cs : List Color) (i : Nat) (p : Packet) :
    (AuraProtocol.writeColors cs i p).length = p.length := by
  induction cs generalizing i p with
  | nil => rfl
  | cons c t ih =>
    simp [AuraProtocol.writeColors, ih, length_writeColor]

theorem byteAt_writeColor_lt (p : Packet) (i : Nat) (c : Color) (j : Nat)
    (h : j < 5 + 3 * i) : byteAt (AuraProtocol.writeColor p i c) j = byteAt p j := by
  unfold AuraProtocol.writeColor
  rw [byteAt_setByte_ne _ _ _ _ (by omega), byteAt_setByte_ne _ _ _ _ (by omega),
    byteAt_setByte_ne _ _ _ _ (by omega)]

theorem byteAt_writeColor_ge (p : Packet) (i : Nat) (c : Color) (j : Nat)
    (h : 5 + 3 * i + 3 ≤ j) : byteAt (AuraProtocol.writeColor p i c) j = byteAt p j := by
  unfold AuraProtocol.writeColor
  rw [byteAt_setByte_ne _ _ _ _ (by omega), byteAt_setByte_ne _ _ _ _ (by omega),
    byteAt_setByte_ne _ _ _ _ (by omega)]

theorem byteAt_writeColor_r (p : Packet) (i : Nat) (c : Color)
    (h : 5 + 3 * i + 2 < p.length) :
    byteAt (AuraProtocol.writeColor p i c) (5 + 3 * i) = c.r % 256 := by
  unfold AuraProtocol.writeColor
  rw [byteAt_setByte_ne _ _ _ _ (by omega), byteAt_setByte_ne _ _ _ _ (by omega),
    byteAt_setByte_self _ _ _ (by omega)]

theorem byteAt_writeColor_g (p : Packet) (i : Nat) (c : Color)
    (h : 5 + 3 * i + 2 < p.length) :
    byteAt (AuraProtocol.writeColor p i c) (5 + 3 * i + 1) = c.g % 256 := by
  unfold AuraProtocol.writeColor
  rw [byteAt_setByte_ne _ _ _ _ (by omega),
    byteAt_setByte_self _ _ _ (by simp only [length_setByte]; omega)]

theorem byteAt_writeColor_b (p : Packet) (i : Nat) (c : Color)
    (h : 5 + 3 * i + 2 < p.length) :
    byteAt (AuraProtocol.writeColor p i c) (5 + 3 * i + 2) = c.b % 256 := by
  unfold AuraProtocol.writeColor
  rw [byteAt_setByte_self _ _ _ (by simp only [length_setByte]; omega)]

theorem byteAt_writeColors_lt (cs : List Color) (i : Nat) (p : Packet) (j : Nat)
    (h : j < 5 + 3 * i) : byteAt (AuraProtocol.writeColors cs i p) j = byteAt p j := by
  induction cs generalizing i p with
  | nil => rfl
  | cons c t ih =>
    show byteAt (AuraProtocol.writeColors t (i + 1) (AuraProtocol.writeColor p i c)) j = byteAt p j
    rw [ih (i + 1) _ (by omega), byteAt_writeColor_lt _ _ _ _ (by omega)]

theorem byteAt_writeColors_ge (cs : List Color) (i : Nat) (p : Packet) (j : Nat)
    (h : 5 + 3 * (i + cs.length) ≤ j) :
    byteAt (AuraProtocol.writeColors cs i p) j = byteAt p j := by
  induction cs generalizing i p with
  | nil => rfl
  | cons c t ih =>
    simp only [List.length_cons] at h
    show byteAt (AuraProtocol.writeColors t (i + 1) (AuraProtocol.writeColor p i c)) j = byteAt p j
    rw [ih (i + 1) _ (by omega), byteAt_writeColor_ge _ _ _ _ (by omega)]

theorem byteAt_writeColors_triplet (cs : List Color) (i : Nat) (p : Packet) (k : Nat)
    (hlen : p.length = 65) (hb : i + cs.length ≤ 20) (hk : k < cs.length) :
    byteAt (AuraProtocol.writeColors cs i p) (5 + 3 * (i + k)) = (cs.getD k ⟨0, 0, 0⟩).r % 256 ∧
    byteAt (AuraProtocol.writeColors cs i p) (5 + 3 * (i + k) + 1) = (cs.getD k ⟨0, 0, 0⟩).g % 256 ∧
    byteAt (AuraProtocol.writeColors cs i p) (5 + 3 * (i + k) + 2) = (cs.getD k ⟨0, 0, 0⟩).b % 256 := by
  induction cs generalizing i p k with
  | nil => simp at hk
  | cons c t ih =>
    simp only [List.length_cons] at hb
    cases k with
    | zero =>
      have h2 : 5 + 3 * i + 2 < p.length := by omega
      refine ⟨?_, ?_, ?_⟩ <;>
        · show byteAt (AuraProtocol.writeColors t (i + 1) (AuraProtocol.writeColor p i c)) _ = _
          rw [byteAt_writeColors_lt _ _ _ _ (by omega)]
          simp only [Nat.add_zero, List.getD_cons_zero]
          first
          | exact byteAt_writeColor_r p i c h2
          | exact byteAt_writeColor_g p i c h2
          | exact byteAt_writeColor_b p i c h2
    | succ k2 =>
      simp only [List.length_cons, Nat.succ_lt_succ_iff] at hk
      have hidx : i + (k2 + 1) = (i + 1) + k2 := by omega
      rw [hidx]
      simp only [List.getD_cons_succ]
      exact ih (i + 1) (AuraProtocol.writeColor p i c) k2
        (by rw [length_writeColor]; exact hlen) (by omega) hk

theorem getD_take (l : List Color) (m k : Nat) (d : Color) (h : k < m) :
    (l.take m).getD k d = l.getD k d := by
  induction l generalizing m k with
  | nil => simp
  | cons a t ih =>
    cases m with
    | zero => omega
    | succ m2 =>
      cases k with
      | zero => simp
      | succ k2 => simpa using ih m2 k2 (by omega)

theorem byteAt_setLEDCount_channel (channel count : Nat) :
    byteAt (AuraProtocol.setLEDCount channel count) 3 = channel % 256 := by
  unfold AuraProtocol.setLEDCount
  rw [byteAt_setByte_ne _ _ _ _ (by omega),
    byteAt_setByte_self _ _ _ (by simp [length_setByte, length_createPacket])]

theorem topoPackets_ascending (t : List (Nat × Nat))
    (h1 : List.Pairwise (fun a b : Nat × Nat => a.1 < b.1) t)
    (h2 : ∀ p ∈ t, p.1 < 256) :
    List.Pairwise (fun p q : Packet => byteAt p 3 < byteAt q 3)
      (SafeAuraController.topoPackets t) := by
  induction t with
  | nil => exact List.Pairwise.nil
  | cons a t ih =>
    rw [List.pairwise_cons] at h1
    refine List.Pairwise.cons ?_ (ih h1.2 fun p hp => h2 p (List.mem_cons_of_mem a hp))
    intro q hq
    obtain ⟨p, hp, rfl⟩ := List.mem_map.mp hq
    rw [byteAt_setLEDCount_channel, byteAt_setLEDCount_channel,
      Nat.mod_eq_of_lt (h2 a (List.mem_cons_self a t)),
      Nat.mod_eq_of_lt (h2 p (List.mem_cons_of_mem a hp))]
    exact h1.1 p hp

theorem ensureRuntime_spec (c : Controller) :
    (c.state = BSMState.Disconnected →
      SafeAuraController.ensureRuntime c = Except.error "[BSM] Not connected") ∧
    (c.state = BSMState.Locked →
      SafeAuraController.ensureRuntime c =
        Except.ok ({ c with state := BSMState.Runtime }, SafeAuraController.topoPackets c.topology)) ∧
    (c.state = BSMState.Runtime ∨ c.state = BSMState.Committed →
      SafeAuraController.ensureRuntime c = Except.ok (c, [])) := by
  obtain ⟨st, topo⟩ := c
  cases st <;>
    simp [SafeAuraController.ensureRuntime, SafeAuraController.initTopology]

/-- Claim C1, counterexample: the claim says `commit()` issued from the
`Committed` state succeeds, but the code throws the state error there —
`commit` only accepts the `Runtime` state. -/
theorem commit_from_committed_fails :
    SafeAuraController.commit { state := BSMState.Committed, topology := defaultTopology } =
      Except.error "[BSM] Cannot commit in state" := rfl

/-- Claim C1 (amended): `commit()` fails with the state error exactly when
the tracked state is not `Runtime` (so from `Disconnected`, `Locked`, and
also `Committed`); from `Runtime` it succeeds, sends the commit packet,
and leaves the tracked state `Committed`; consequently a second `commit()`
issued right after a successful one fails. -/
theorem commit_state_machine (c : Controller) :
    (c.state = BSMState.Runtime →
      SafeAuraController.commit c =
        Except.ok ({ c with state := BSMState.Committed }, [AuraProtocol.commit])) ∧
    (c.state ≠ BSMState.Runtime →
      SafeAuraController.commit c = Except.error "[BSM] Cannot commit in state") ∧
    (∀ c2 sent, SafeAuraController.commit c = Except.ok (c2, sent) →
      SafeAuraController.commit c2 = Except.error "[BSM] Cannot commit in state") := by
  obtain ⟨st, topo⟩ := c
  cases st <;> simp [SafeAuraController.commit]

/-- Claim C1 witness: a concrete `Runtime` session commits successfully,
ending `Committed` with the commit packet sent. -/
theorem commit_state_machine_witness :
    SafeAuraController.commit { state := BSMState.Runtime, topology := defaultTopology } =
      Except.ok ({ state := BSMState.Committed, topology := defaultTopology },
        [AuraProtocol.commit]) :=
  (commit_state_machine { state := BSMState.Runtime, topology := defaultTopology }).1 rfl

/-- Claim C5: `initTopology()` fails with the state error when the tracked
state is `Disconnected`; in any connected state it sends exactly one
set-topology command per `(channel, count)` entry of the configured
Topology, in entry order (ascending channel index, since the integer-keyed
topology object enumerates ascending — formalised by the last conjunct),
and leaves the tracked state `Runtime` with the topology unchanged; a
second call from the resulting state returns the very same outcome
(idempotence). -/
theorem initTopology_spec (c : Controller) :
    (c.state = BSMState.Disconnected →
      SafeAuraController.initTopology c =
        Except.error "[BSM] Cannot init topology while disconnected") ∧
    (c.state ≠ BSMState.Disconnected →
      SafeAuraController.initTopology c =
        Except.ok ({ c with state := BSMState.Runtime },
          SafeAuraController.topoPackets c.topology)) ∧
    (∀ c2 sent, SafeAuraController.initTopology c = Except.ok (c2, sent) →
      c2.state = BSMState.Runtime ∧ c2.topology = c.topology ∧
      SafeAuraController.initTopology c2 = Except.ok (c2, sent)) ∧
    (List.Pairwise (fun a b : Nat × Nat => a.1 < b.1) c.topology →
      (∀ p ∈ c.topology, p.1 < 256) →
      List.Pairwise (fun p q : Packet => byteAt p 3 < byteAt q 3)
        (SafeAuraController.topoPackets c.topology)) := by
  obtain ⟨st, topo⟩ := c
  refine ⟨?_, ?_, ?_, fun h1 h2 => topoPackets_ascending topo h1 h2⟩ <;>
    cases st <;> simp [SafeAuraController.initTopology]

/-- Claim C5 witness: on a concrete `Runtime` session with the default
topology, `initTopology` succeeds, and twice in a row gives the same
result; the default topology's packets are in ascending channel order. -/
theorem initTopology_spec_witness :
    SafeAuraController.initTopology { state := BSMState.Runtime, topology := defaultTopology } =
      Except.ok ({ state := BSMState.Runtime, topology := defaultTopology },
        SafeAuraController.topoPackets defaultTopology) ∧
    List.Pairwise (fun p q : Packet => byteAt p 3 < byteAt q 3)
      (SafeAuraController.topoPackets defaultTopology) :=
  ⟨(initTopology_spec { state := BSMState.Runtime, topology := defaultTopology }).2.1 (by decide),
   (initTopology_spec { state := BSMState.Runtime, topology := defaultTopology }).2.2.2
     (by decide) (by decide)⟩

/-- Claim C6: a `connect()` call that returns successfully leaves the
tracked state `Runtime` (never `Locked`) with the topology unchanged,
having sent the topology packets: `connect` goes `Disconnected → Locked`
and then unconditionally performs `initTopology()`. -/
theorem connect_spec (c : Controller) (found : Bool) (c2 : Controller) (sent : List Packet)
    (h : SafeAuraController.connect c found = Except.ok (c2, sent)) :
    c2.state = BSMState.Runtime ∧ c2.topology = c.topology ∧
    sent = SafeAuraController.topoPackets c.topology ∧
    SafeAuraController.connect c found =
      SafeAuraController.initTopology { c with state := BSMState.Locked } := by
  cases found with
  | false => simp [SafeAuraController.connect] at h
  | true =>
    have hstep : SafeAuraController.connect c true =
        Except.ok ({ c with state := BSMState.Runtime },
          SafeAuraController.topoPackets c.topology) := by
      simp [SafeAuraController.connect, SafeAuraController.initTopology]
    rw [hstep] at h
    have hp := Except.ok.inj h
    have h1 : c2 = { c with state := BSMState.Runtime } := congrArg Prod.fst hp.symm
    have h2 : sent = SafeAuraController.topoPackets c.topology := congrArg Prod.snd hp.symm
    exact ⟨by rw [h1], by rw [h1], h2, rfl⟩

/-- Claim C6 witness: a concrete fresh session connects straight to
`Runtime`. -/
theorem connect_spec_witness :
    ({ state := BSMState.Runtime, topology := defaultTopology } : Controller).state =
        BSMState.Runtime ∧
      ({ state := BSMState.Runtime, topology := defaultTopology } : Controller).topology =
        defaultTopology ∧
      SafeAuraController.topoPackets defaultTopology =
        SafeAuraController.topoPackets defaultTopology ∧
      SafeAuraController.connect { state := BSMState.Disconnected, topology := defaultTopology }
          true =
        SafeAuraController.initTopology
          { state := BSMState.Locked, topology := defaultTopology } := by
  have h := connect_spec { state := BSMState.Disconnected, topology := defaultTopology } true
    { state := BSMState.Runtime, topology := defaultTopology }
    (SafeAuraController.topoPackets defaultTopology) rfl
  exact ⟨h.1, h.2.1, h.2.2.1.symm ▸ rfl, h.2.2.2⟩

/-- Claim C7: every color/effect operation (`setLED`, `setAllLEDs`,
`setEffect`) fails with the state error exactly when the tracked state is
`Disconnected`; in any other state it succeeds, and from `Locked` it first
transparently performs `initTopology()` (sending the topology packets and
reaching `Runtime`) before sending its own command. -/
theorem color_ops_guard (c : Controller) (channel ledIndex mode r g b brightness : Nat) :
    (c.state = BSMState.Disconnected →
      SafeAuraController.setLED c channel ledIndex r g b =
          Except.error "[BSM] Not connected" ∧
        SafeAuraController.setAllLEDs c channel r g b = Except.error "[BSM] Not connected" ∧
        SafeAuraController.setEffect c channel mode r g b brightness =
          Except.error "[BSM] Not connected") ∧
    (c.state ≠ BSMState.Disconnected →
      (∃ out, SafeAuraController.setLED c channel ledIndex r g b = Except.ok out) ∧
        (∃ out, SafeAuraController.setAllLEDs c channel r g b = Except.ok out) ∧
        (∃ out, SafeAuraController.setEffect c channel mode r g b brightness =
          Except.ok out)) ∧
    (c.state = BSMState.Locked →
      SafeAuraController.setLED c channel ledIndex r g b =
        Except.ok ({ c with state := BSMState.Runtime },
          SafeAuraController.topoPackets c.topology ++
            [AuraProtocol.setDirectLED channel ledIndex [⟨r, g, b⟩]])) := by
  obtain ⟨st, topo⟩ := c
  cases st <;>
    simp [SafeAuraController.setLED, SafeAuraController.setAllLEDs,
      SafeAuraController.setEffect, SafeAuraController.ensureRuntime,
      SafeAuraController.initTopology]

/-- Claim C7 witness: from a concrete `Locked` session, `setLED` succeeds
and sends the topology packets followed by its direct-color command. -/
theorem color_ops_guard_witness :
    SafeAuraController.setLED { state := BSMState.Locked, topology := defaultTopology }
        2 0 255 0 0 =
      Except.ok ({ state := BSMState.Runtime, topology := defaultTopology },
        SafeAuraController.topoPackets defaultTopology ++
          [AuraProtocol.setDirectLED 2 0 [⟨255, 0, 0⟩]]) :=
  (color_ops_guard { state := BSMState.Locked, topology := defaultTopology }
    2 0 0 255 0 0 0).2.2 rfl

/-- Claim C8: the decoding half of `getConfig` fails with the protocol
error exactly when the response is absent or its first two bytes are not
`EC 30`; on any other response it returns a snapshot whose channel LED
counts are the response bytes at offsets 0x0A, 0x10, 0x16. -/
theorem getConfig_decode_spec (resp : Option Packet) :
    ((∃ cfg, AuraProtocol.getConfig resp = Except.ok cfg) ↔
      ∃ r, resp = some r ∧ byteAt r 0 = 0xEC ∧ byteAt r 1 = 0x30) ∧
    (∀ r cfg, resp = some r → AuraProtocol.getConfig resp = Except.ok cfg →
      cfg.channel0_leds = byteAt r 0x0A ∧ cfg.channel1_leds = byteAt r 0x10 ∧
        cfg.channel2_leds = byteAt r 0x16) ∧
    AuraProtocol.getConfig none = Except.error "Invalid config response" := by
  refine ⟨⟨?_, ?_⟩, ?_, rfl⟩
  · rintro ⟨cfg, h⟩
    cases resp with
    | none => simp [AuraProtocol.getConfig] at h
    | some r =>
      refine ⟨r, rfl, ?_⟩
      by_cases hc : byteAt r 0 = 0xEC ∧ byteAt r 1 = 0x30
      · exact hc
      · simp [AuraProtocol.getConfig, hc] at h
  · rintro ⟨r, rfl, h0, h1⟩
    refine ⟨AuraProtocol.Config.mk r (byteAt r 0x0A) (byteAt r 0x10) (byteAt r 0x16), ?_⟩
    simp [AuraProtocol.getConfig, h0, h1]
  · rintro r cfg rfl h
    by_cases hc : byteAt r 0 = 0xEC ∧ byteAt r 1 = 0x30
    · simp only [AuraProtocol.getConfig, if_pos hc, Except.ok.injEq] at h
      rw [← h]
      exact ⟨rfl, rfl, rfl⟩
    · simp [AuraProtocol.getConfig, hc] at h

/-- Claim C8 witness: a synthetic response with counts 7, 8, 9 at the
documented offsets decodes, and the snapshot recovers those values. -/
theorem getConfig_decode_spec_witness :
    ∃ cfg, AuraProtocol.getConfig (some (mkResponse 7 8 9)) = Except.ok cfg ∧
      cfg.channel0_leds = 7 ∧ cfg.channel1_leds = 8 ∧ cfg.channel2_leds = 9 := by
  have h := getConfig_decode_spec (some (mkResponse 7 8 9))
  obtain ⟨cfg, hcfg⟩ := h.1.mpr ⟨mkResponse 7 8 9, rfl, by decide, by decide⟩
  have hc := h.2.1 (mkResponse 7 8 9) cfg rfl hcfg
  exact ⟨cfg, hcfg, hc.1.trans (by decide), hc.2.1.trans (by decide), hc.2.2.trans (by decide)⟩

/-- Claim C4: `isBricked()` returns true when the configuration read
fails for any reason, and on a decoded snapshot `(c0, c1, c2)` returns
true exactly when some count is 0, or all three are equal and differ
from 15. -/
theorem isBricked_spec (c : Controller) (resp : Option Packet) :
    (∀ e, SafeAuraController.getConfig c resp = Except.error e →
      SafeAuraController.isBricked c resp = true) ∧
    (∀ cfg, SafeAuraController.getConfig c resp = Except.ok cfg →
      (SafeAuraController.isBricked c resp = true ↔
        cfg.channel0_leds = 0 ∨ cfg.channel1_leds = 0 ∨ cfg.channel2_leds = 0 ∨
          (cfg.channel0_leds = cfg.channel1_leds ∧ cfg.channel1_leds = cfg.channel2_leds ∧
            cfg.channel0_leds ≠ 15))) := by
  constructor
  · intro e he
    simp [SafeAuraController.isBricked, he]
  · intro cfg hc
    simp only [SafeAuraController.isBricked, hc]
    by_cases h0 : cfg.channel0_leds = 0 ∨ cfg.channel1_leds = 0 ∨ cfg.channel2_leds = 0
    · rw [if_pos h0]
      simp [h0]
      tauto
    · rw [if_neg h0]
      by_cases h1 : cfg.channel0_leds = cfg.channel1_leds ∧
          cfg.channel1_leds = cfg.channel2_leds ∧ cfg.channel0_leds ≠ 15
      · rw [if_pos h1]
        simp
        tauto
      · rw [if_neg h1]
        constructor
        · intro hf
          simp at hf
        · intro hr
          rcases hr with h | h | h | h
          · exact absurd (Or.inl h) h0
          · exact absurd (Or.inr (Or.inl h)) h0
          · exact absurd (Or.inr (Or.inr h)) h0
          · exact absurd h h1

/-- Claim C4 witness: on a connected session, a snapshot with a zero
count is bricked, `(5,5,5)` is bricked, `(15,15,16)` is not, and a
disconnected session (whose read fails) reads as bricked. -/
theorem isBricked_spec_witness :
    SafeAuraController.isBricked { state := BSMState.Runtime, topology := defaultTopology }
        (some (mkResponse 5 5 5)) = true ∧
      SafeAuraController.isBricked { state := BSMState.Runtime, topology := defaultTopology }
        (some (mkResponse 0 7 9)) = true ∧
      SafeAuraController.isBricked { state := BSMState.Runtime, topology := defaultTopology }
        (some (mkResponse 15 15 16)) = false ∧
      SafeAuraController.isBricked
        { state := BSMState.Disconnected, topology := defaultTopology }
        (some (mkResponse 15 15 16)) = true := by
  refine ⟨?_, ?_, ?_, ?_⟩
  · exact ((isBricked_spec { state := BSMState.Runtime, topology := defaultTopology }
      (some (mkResponse 5 5 5))).2
        (AuraProtocol.Config.mk (mkResponse 5 5 5) 5 5 5) rfl).mpr (by decide)
  · exact ((isBricked_spec { state := BSMState.Runtime, topology := defaultTopology }
      (some (mkResponse 0 7 9))).2
        (AuraProtocol.Config.mk (mkResponse 0 7 9) 0 7 9) rfl).mpr (by decide)
  · have hiff := (isBricked_spec { state := BSMState.Runtime, topology := defaultTopology }
      (some (mkResponse 15 15 16))).2
        (AuraProtocol.Config.mk (mkResponse 15 15 16) 15 15 16) rfl
    cases heval : SafeAuraController.isBricked
        { state := BSMState.Runtime, topology := defaultTopology }
        (some (mkResponse 15 15 16)) with
    | false => rfl
    | true => exact absurd (hiff.mp heval) (by decide)
  · exact (isBricked_spec { state := BSMState.Disconnected, topology := defaultTopology }
      (some (mkResponse 15 15 16))).1 "[BSM] Not connected" rfl

/-- Claim C3: for a connected session and a decodable re-read response,
`unbrick()` sends one set-topology command per entry of the target
topology (the session's configured one when none is given) in entry order
— ascending channel order for an ascending-keyed topology, as the second
conjunct formalises — then the commit command unconditionally, then the
config-read command; it returns true exactly when the re-read channel-2
LED count is at least 16, and it sets the tracked state to `Committed`
whether that verification succeeded or failed. -/
theorem unbrick_spec (c : Controller) (tt : Option (List (Nat × Nat))) (resp : Option Packet)
    (cfg : AuraProtocol.Config)
    (hs : c.state ≠ BSMState.Disconnected)
    (hdec : AuraProtocol.getConfig resp = Except.ok cfg) :
    (SafeAuraController.unbrick c tt resp =
      Except.ok ({ c with state := BSMState.Committed },
        SafeAuraController.topoPackets (tt.getD c.topology) ++
          [AuraProtocol.commit, AuraProtocol.readConfigPacket],
        decide (16 ≤ cfg.channel2_leds))) ∧
    (decide (16 ≤ cfg.channel2_leds) = true ↔ 16 ≤ cfg.channel2_leds) ∧
    (List.Pairwise (fun a b : Nat × Nat => a.1 < b.1) (tt.getD c.topology) →
      (∀ p ∈ tt.getD c.topology, p.1 < 256) →
      List.Pairwise (fun p q : Packet => byteAt p 3 < byteAt q 3)
        (SafeAuraController.topoPackets (tt.getD c.topology))) := by
  refine ⟨?_, decide_eq_true_iff, fun h1 h2 => topoPackets_ascending _ h1 h2⟩
  have hg : SafeAuraController.getConfig c resp = Except.ok cfg := by
    unfold SafeAuraController.getConfig
    rw [if_neg hs]
    exact hdec
  simp [SafeAuraController.unbrick, hg]

/-- Claim C3 witness: a concrete `Locked` session unbricked with the
default topology against a `(15,15,16)` re-read succeeds, returns true,
and ends `Committed`. -/
theorem unbrick_spec_witness :
    SafeAuraController.unbrick { state := BSMState.Locked, topology := defaultTopology }
        (some defaultTopology) (some (mkResponse 15 15 16)) =
      Except.ok ({ state := BSMState.Committed, topology := defaultTopology },
        SafeAuraController.topoPackets defaultTopology ++
          [AuraProtocol.commit, AuraProtocol.readConfigPacket],
        true) := by
  have h := (unbrick_spec { state := BSMState.Locked, topology := defaultTopology }
    (some defaultTopology) (some (mkResponse 15 15 16))
    (AuraProtocol.Config.mk (mkResponse 15 15 16) 15 15 16) (by decide) rfl).1
  exact h

/-- Claim C10: on a connected session, for a channel with no topology
entry (or an entry of 0), `setAllLEDs` succeeds, falling back to the
hard-coded count 16 and issuing a single direct-color command carrying 16
copies of the color. -/
theorem setAllLEDs_fallback (c : Controller) (channel r g b : Nat)
    (hs : c.state ≠ BSMState.Disconnected)
    (ht : SafeAuraController.topoCount c.topology channel = none ∨
      SafeAuraController.topoCount c.topology channel = some 0) :
    ∃ c2 pre, SafeAuraController.setAllLEDs c channel r g b =
      Except.ok (c2, pre ++
        [AuraProtocol.setDirectLED channel 0 (List.replicate 16 ⟨r, g, b⟩)]) := by
  obtain ⟨st, topo⟩ := c
  cases st with
  | Disconnected => exact absurd rfl hs
  | Locked =>
    refine ⟨{ state := BSMState.Runtime, topology := topo },
      SafeAuraController.topoPackets topo, ?_⟩
    rcases ht with h | h <;>
      simp [SafeAuraController.setAllLEDs, SafeAuraController.ensureRuntime,
        SafeAuraController.initTopology, h]
  | Runtime =>
    refine ⟨{ state := BSMState.Runtime, topology := topo }, [], ?_⟩
    rcases ht with h | h <;>
      simp [SafeAuraController.setAllLEDs, SafeAuraController.ensureRuntime, h]
  | Committed =>
    refine ⟨{ state := BSMState.Committed, topology := topo }, [], ?_⟩
    rcases ht with h | h <;>
      simp [SafeAuraController.setAllLEDs, SafeAuraController.ensureRuntime, h]

/-- Claim C10 witness: a concrete `Runtime` session whose topology lacks
channel 2 still succeeds, sending 16 copies of the color. -/
theorem setAllLEDs_fallback_witness :
    ∃ c2 pre, SafeAuraController.setAllLEDs
        { state := BSMState.Runtime, topology := [(0, 15)] } 2 255 128 0 =
      Except.ok (c2, pre ++
        [AuraProtocol.setDirectLED 2 0 (List.replicate 16 ⟨255, 128, 0⟩)]) :=
  setAllLEDs_fallback { state := BSMState.Runtime, topology := [(0, 15)] } 2 255 128 0
    (by decide) (Or.inl (by decide))

/-- Claim C2, counterexample: with 21 colors, the claim says the count
byte (byte 4) equals the number of triplets actually encoded, min(21,20) =
20; the code instead writes the full `colors.length`, 21. -/
theorem setDirectLED_count_byte_counterexample :
    byteAt (AuraProtocol.setDirectLED 0 0 (List.replicate 21 (Color.mk 1 2 3))) 4 ≠
      min (List.replicate 21 (Color.mk 1 2 3)).length 20 := by decide

/-- Claim C2 (amended): the direct-color packet contains exactly
min(n, 20) RGB triplets starting at byte 5 (entries beyond the 20th are
silently dropped, and every byte after the encoded triplets is zero), but
the count byte (byte 4) equals the full `colors.length` reduced modulo
256, not the number of triplets actually encoded. -/
theorem setDirectLED_packet_spec (channel offset : Nat) (colors : List Color) :
    byteAt (AuraProtocol.setDirectLED channel offset colors) 4 = colors.length % 256 ∧
    (∀ k, k < min colors.length 20 →
      byteAt (AuraProtocol.setDirectLED channel offset colors) (5 + 3 * k) =
          (colors.getD k ⟨0, 0, 0⟩).r % 256 ∧
        byteAt (AuraProtocol.setDirectLED channel offset colors) (5 + 3 * k + 1) =
          (colors.getD k ⟨0, 0, 0⟩).g % 256 ∧
        byteAt (AuraProtocol.setDirectLED channel offset colors) (5 + 3 * k + 2) =
          (colors.getD k ⟨0, 0, 0⟩).b % 256) ∧
    (∀ j, 5 + 3 * min colors.length 20 ≤ j →
      byteAt (AuraProtocol.setDirectLED channel offset colors) j = 0) := by
  have hlenh : (setByte (setByte (setByte (setByte (setByte createPacket 0 0xEC) 1 0x40) 2
      (0x80 ||| channel)) 3 offset) 4 colors.length).length = 65 := by
    simp [length_setByte, length_createPacket]
  unfold AuraProtocol.setDirectLED
  refine ⟨?_, ?_, ?_⟩
  · rw [byteAt_writeColors_lt _ _ _ 4 (by omega)]
    exact byteAt_setByte_self _ 4 _ (by simp [length_setByte, length_createPacket])
  · intro k hk
    have hk2 : k < (colors.take 20).length := by
      rw [List.length_take]; omega
    have h3 := byteAt_writeColors_triplet (colors.take 20) 0 _ k hlenh
      (by rw [List.length_take]; omega) hk2
    simp only [Nat.zero_add] at h3
    rw [getD_take colors 20 k _ (by omega)] at h3
    exact h3
  · intro j hj
    rw [byteAt_writeColors_ge _ _ _ j (by rw [List.length_take]; omega)]
    rw [byteAt_setByte_ne _ _ _ _ (by omega), byteAt_setByte_ne _ _ _ _ (by omega),
      byteAt_setByte_ne _ _ _ _ (by omega), byteAt_setByte_ne _ _ _ _ (by omega),
      byteAt_setByte_ne _ _ _ _ (by omega)]
    exact byteAt_createPacket j

/-- Claim C2 witness: one color `(9,8,7)` gives count byte 1, its triplet
at bytes 5-7, and zero from byte 8 on. -/
theorem setDirectLED_packet_spec_witness :
    byteAt (AuraProtocol.setDirectLED 1 0 [Color.mk 9 8 7]) 4 = 1 ∧
      byteAt (AuraProtocol.setDirectLED 1 0 [Color.mk 9 8 7]) 5 = 9 ∧
      byteAt (AuraProtocol.setDirectLED 1 0 [Color.mk 9 8 7]) 6 = 8 ∧
      byteAt (AuraProtocol.setDirectLED 1 0 [Color.mk 9 8 7]) 7 = 7 ∧
      byteAt (AuraProtocol.setDirectLED 1 0 [Color.mk 9 8 7]) 8 = 0 := by
  have h := setDirectLED_packet_spec 1 0 [Color.mk 9 8 7]
  have hk := h.2.1 0 (by decide)
  exact ⟨h.1.trans (by decide), hk.1.trans (by decide), hk.2.1.trans (by decide),
    hk.2.2.trans (by decide), h.2.2 8 (by decide)⟩

/-- Claim C9: every packet built by the codec — read-config, set-topology,
commit, set-effect, direct-color — is exactly 65 bytes long, has byte 0
equal to the prefix 0xEC, and has every byte not written by that command's
fields equal to zero. -/
theorem packet_encoders_invariant (channel count mode r g b brightness offset : Nat)
    (colors : List Color) :
    (AuraProtocol.readConfigPacket.length = 65 ∧
      byteAt AuraProtocol.readConfigPacket 0 = 0xEC ∧
      ∀ i, 2 ≤ i → byteAt AuraProtocol.readConfigPacket i = 0) ∧
    ((AuraProtocol.setLEDCount channel count).length = 65 ∧
      byteAt (AuraProtocol.setLEDCount channel count) 0 = 0xEC ∧
      ∀ i, 5 ≤ i → byteAt (AuraProtocol.setLEDCount channel count) i = 0) ∧
    (AuraProtocol.commit.length = 65 ∧
      byteAt AuraProtocol.commit 0 = 0xEC ∧
      ∀ i, 3 ≤ i → byteAt AuraProtocol.commit i = 0) ∧
    ((AuraProtocol.setEffect channel mode r g b brightness).length = 65 ∧
      byteAt (AuraProtocol.setEffect channel mode r g b brightness) 0 = 0xEC ∧
      ∀ i, 8 ≤ i → byteAt (AuraProtocol.setEffect channel mode r g b brightness) i = 0) ∧
    ((AuraProtocol.setDirectLED channel offset colors).length = 65 ∧
      byteAt (AuraProtocol.setDirectLED channel offset colors) 0 = 0xEC ∧
      ∀ i, 5 + 3 * min colors.length 20 ≤ i →
        byteAt (AuraProtocol.setDirectLED channel offset colors) i = 0) := by
  refine ⟨⟨?_, ?_, ?_⟩, ⟨?_, ?_, ?_⟩, ⟨?_, ?_, ?_⟩, ⟨?_, ?_, ?_⟩, ⟨?_, ?_, ?_⟩⟩
  · simp [AuraProtocol.readConfigPacket, length_setByte, length_createPacket]
  · unfold AuraProtocol.readConfigPacket
    rw [byteAt_setByte_ne _ _ _ _ (by omega),
      byteAt_setByte_self _ 0 _ (by simp [length_createPacket])]
  · intro i hi
    unfold AuraProtocol.readConfigPacket
    rw [byteAt_setByte_ne _ _ _ _ (by omega), byteAt_setByte_ne _ _ _ _ (by omega)]
    exact byteAt_createPacket i
  · simp [AuraProtocol.setLEDCount, length_setByte, length_createPacket]
  · unfold AuraProtocol.setLEDCount
    rw [byteAt_setByte_ne _ _ _ _ (by omega), byteAt_setByte_ne _ _ _ _ (by omega),
      byteAt_setByte_ne _ _ _ _ (by omega), byteAt_setByte_ne _ _ _ _ (by omega),
      byteAt_setByte_self _ 0 _ (by simp [length_createPacket])]
  · intro i hi
    unfold AuraProtocol.setLEDCount
    rw [byteAt_setByte_ne _ _ _ _ (by omega), byteAt_setByte_ne _ _ _ _ (by omega),
      byteAt_setByte_ne _ _ _ _ (by omega), byteAt_setByte_ne _ _ _ _ (by omega),
      byteAt_setByte_ne _ _ _ _ (by omega)]
    exact byteAt_createPacket i
  · simp [AuraProtocol.commit, length_setByte, length_createPacket]
  · unfold AuraProtocol.commit
    rw [byteAt_setByte_ne _ _ _ _ (by omega), byteAt_setByte_ne _ _ _ _ (by omega),
      byteAt_setByte_self _ 0 _ (by simp [length_createPacket])]
  · intro i hi
    unfold AuraProtocol.commit
    rw [byteAt_setByte_ne _ _ _ _ (by omega), byteAt_setByte_ne _ _ _ _ (by omega),
      byteAt_setByte_ne _ _ _ _ (by omega)]
    exact byteAt_createPacket i
  · simp [AuraProtocol.setEffect, length_setByte, length_createPacket]
  · unfold AuraProtocol.setEffect
    rw [byteAt_setByte_ne _ _ _ _ (by omega), byteAt_setByte_ne _ _ _ _ (by omega),
      byteAt_setByte_ne _ _ _ _ (by omega), byteAt_setByte_ne _ _ _ _ (by omega),
      byteAt_setByte_ne _ _ _ _ (by omega), byteAt_setByte_ne _ _ _ _ (by omega),
      byteAt_setByte_ne _ _ _ _ (by omega),
      byteAt_setByte_self _ 0 _ (by simp [length_createPacket])]
  · intro i hi
    unfold AuraProtocol.setEffect
    rw [byteAt_setByte_ne _ _ _ _ (by omega), byteAt_setByte_ne _ _ _ _ (by omega),
      byteAt_setByte_ne _ _ _ _ (by omega), byteAt_setByte_ne _ _ _ _ (by omega),
      byteAt_setByte_ne _ _ _ _ (by omega), byteAt_setByte_ne _ _ _ _ (by omega),
      byteAt_setByte_ne _ _ _ _ (by omega), byteAt_setByte_ne _ _ _ _ (by omega)]
    exact byteAt_createPacket i
  · simp [AuraProtocol.setDirectLED, length_writeColors, length_setByte, length_createPacket]
  · unfold AuraProtocol.setDirectLED
    rw [byteAt_writeColors_lt _ _ _ 0 (by omega), byteAt_setByte_ne _ _ _ _ (by omega),
      byteAt_setByte_ne _ _ _ _ (by omega), byteAt_setByte_ne _ _ _ _ (by omega),
      byteAt_setByte_ne _ _ _ _ (by omega),
      byteAt_setByte_self _ 0 _ (by simp [length_createPacket])]
  · intro i hi
    unfold AuraProtocol.setDirectLED
    rw [byteAt_writeColors_ge _ _ _ i (by rw [List.length_take]; omega)]
    rw [byteAt_setByte_ne _ _ _ _ (by omega), byteAt_setByte_ne _ _ _ _ (by omega),
      byteAt_setByte_ne _ _ _ _ (by omega), byteAt_setByte_ne _ _ _ _ (by omega),
      byteAt_setByte_ne _ _ _ _ (by omega)]
    exact byteAt_createPacket i

/-- Claim C9 witness: sample instances — the read-config packet is 65
bytes, a concrete set-topology packet starts with 0xEC, and a concrete
one-color direct packet is zero at byte 10. -/
theorem packet_encoders_invariant_witness :
    AuraProtocol.readConfigPacket.length = 65 ∧
      byteAt (AuraProtocol.setLEDCount 2 16) 0 = 0xEC ∧
      byteAt (AuraProtocol.setDirectLED 2 0 [Color.mk 9 9 9]) 10 = 0 :=
  ⟨(packet_encoders_invariant 2 16 0 0 0 0 0 0 [Color.mk 9 9 9]).1.1,
   (packet_encoders_invariant 2 16 0 0 0 0 0 0 [Color.mk 9 9 9]).2.1.2.1,
   (packet_encoders_invariant 2 0 0 0 0 0 0 0 [Color.mk 9 9 9]).2.2.2.2.2.2 10 (by decide)⟩

end Unbrick
